import Mathlib

/-!
Verification of the teradl bot (`src/main.py`): a shallow embedding of its
rate-limit gate, response parser, link resolver, message formatter and
keepalive HTTP handlers, with theorems settling the specification claims.
Timestamps are modelled as rationals (the source uses `time.time()` floats),
machine text as Lean strings, and JSON documents as an inductive value type.
-/

/-- Python `int()` applied to a float/rational: truncation toward zero. -/
def pytrunc (q : ℚ) : Int := if 0 ≤ q then ⌊q⌋ else ⌈q⌉

/-- Decimal digit character, used to render numbers the way Python `str` does. -/
def digitCh (d : Nat) : Char :=
  match d % 10 with
  | 0 => '0' | 1 => '1' | 2 => '2' | 3 => '3' | 4 => '4'
  | 5 => '5' | 6 => '6' | 7 => '7' | 8 => '8' | _ => '9'

/-- Decimal digits of a natural number, most significant first (fuel-driven so
that it reduces inside the kernel). -/
def natDigitsAux : Nat → Nat → List Char
  | 0, _ => []
  | fuel + 1, n =>
    if n < 10 then [digitCh n] else natDigitsAux fuel (n / 10) ++ [digitCh (n % 10)]

/-- Decimal digits of a natural number. -/
def natDigits (n : Nat) : List Char := natDigitsAux (n + 1) n

/-- Python `str` of an integer: optional minus sign followed by decimal digits. -/
def intRepr (n : Int) : String :=
  if n < 0 then String.mk (Char.ofNat 45 :: natDigits n.natAbs)
  else String.mk (natDigits n.natAbs)

/-- A single-quote character as a string (Python `repr` quoting). -/
def squo : String := String.singleton (Char.ofNat 39)

/-- A double-quote character as a string. -/
def dquo : String := String.singleton (Char.ofNat 34)

/-- Is `pre` a prefix of `l`? (Embeds Python `str.startswith`.) -/
def listPre : List Char → List Char → Bool
  | [], _ => true
  | _ :: _, [] => false
  | a :: as, b :: bs => a == b && listPre as bs

/-- Python `pre in s` would be `containsSub s pre`; this is the prefix test. -/
def strStarts (pre s : String) : Bool := listPre pre.data s.data

/-- Does `hay` contain `needle` as a contiguous run? (Embeds Python `in`.) -/
def hasSubList : List Char → List Char → Bool
  | [], needle => listPre needle []
  | c :: t, needle => listPre needle (c :: t) || hasSubList t needle

/-- Python `needle in hay` on strings. -/
def containsSub (hay needle : String) : Bool := hasSubList hay.data needle.data

/-- ASCII whitespace recognised by `str.strip()`. -/
def isWs (c : Char) : Bool :=
  c == Char.ofNat 32 || c == Char.ofNat 9 || c == Char.ofNat 10 ||
  c == Char.ofNat 13 || c == Char.ofNat 11 || c == Char.ofNat 12

/-- Python `str.strip()`: drop leading and trailing whitespace. -/
def pyStrip (s : String) : String :=
  String.mk (((s.data.dropWhile isWs).reverse.dropWhile isWs).reverse)

/-- JSON values as produced by `resp.json()` in the source. Numbers are
modelled as integers (float payload numbers are out of scope). -/
inductive JVal where
  | null
  | bool (b : Bool)
  | num (n : Int)
  | str (s : String)
  | arr (xs : List JVal)
  | obj (kvs : List (String × JVal))

/-- Python truthiness of a JSON value. -/
def truthy : JVal → Bool
  | JVal.null => false
  | JVal.bool b => b
  | JVal.num n => !(n == 0)
  | JVal.str s => !(s == "")
  | JVal.arr xs => !xs.isEmpty
  | JVal.obj kvs => !kvs.isEmpty

/-- First binding of a key in an association list (Python dict lookup). -/
def alistGet : List (String × JVal) → String → Option JVal
  | [], _ => none
  | (k, v) :: rest, key => if k = key then some v else alistGet rest key

/-- Python `d.get(key)`: `none` when absent or when the value is not a dict. -/
def jget : JVal → String → Option JVal
  | JVal.obj kvs, key => alistGet kvs key
  | _, _ => none

/-- Python `d.get(key)` seen as a value: a missing key yields `None`. -/
def jgetV (d : JVal) (key : String) : JVal := (jget d key).getD JVal.null

/-- Python `a or b`: `a` when truthy, else `b`. -/
def orJ (a b : JVal) : JVal := if truthy a then a else b

/-- Is the value a JSON object (Python `isinstance(x, dict)`)? -/
def isDictJV : JVal → Bool
  | JVal.obj _ => true
  | _ => false

/-- Is the value a JSON array (Python `isinstance(x, list)`)? -/
def isArrJV : JVal → Bool
  | JVal.arr _ => true
  | _ => false

mutual

/-- Python `repr` of a JSON value (string quoting simplified to plain single
quotes; the source only ever renders strings, numbers, `None` and booleans). -/
def pyrepr : JVal → String
  | JVal.null => "None"
  | JVal.bool true => "True"
  | JVal.bool false => "False"
  | JVal.num n => intRepr n
  | JVal.str s => squo ++ s ++ squo
  | JVal.arr xs => "[" ++ pyreprL xs ++ "]"
  | JVal.obj kvs => "\x7b" ++ pyreprKV kvs ++ "\x7d"

/-- Comma-separated `repr`s of a list of JSON values. -/
def pyreprL : List JVal → String
  | [] => ""
  | [x] => pyrepr x
  | x :: y :: rest => pyrepr x ++ ", " ++ pyreprL (y :: rest)

/-- Comma-separated `repr`s of the bindings of a JSON object. -/
def pyreprKV : List (String × JVal) → String
  | [] => ""
  | [(k, v)] => squo ++ k ++ squo ++ ": " ++ pyrepr v
  | (k, v) :: w :: rest => squo ++ k ++ squo ++ ": " ++ pyrepr v ++ ", " ++ pyreprKV (w :: rest)

end

/-- Python `str` of a JSON value: the string itself for strings, `repr`-style
rendering otherwise. -/
def pystr : JVal → String
  | JVal.str s => s
  | v => pyrepr v

/-- Loop body of `parse_json` in `src/main.py` (lines 36-43): skip non-dict
items, resolve the three key families with Python `or`, keep the item only
when the resolved download is an http(s) string. -/
def parse_item_step (results : List (String × String × String)) (item : JVal) :
    List (String × String × String) :=
  if isDictJV item = false then results else
  let title := orJ (orJ (jgetV item ("title")) (jgetV item ("name"))) (JVal.str ("Unknown File"))
  let download := orJ (orJ (jgetV item ("download")) (jgetV item ("url"))) (jgetV item ("link"))
  let size := orJ (orJ (jgetV item ("size")) (jgetV item ("filesize"))) (JVal.str (""))
  match download with
  | JVal.str d =>
    if strStarts ("http://") d || strStarts ("https://") d then
      results ++ [(pystr title, d, pystr size)]
    else results
  | _ => results

/-- `data.get("data") or data.get("items") or []` from `parse_json`. -/
def itemsField (data : JVal) : JVal :=
  orJ (orJ (jgetV data ("data")) (jgetV data ("items"))) (JVal.arr [])

/-- `parse_json` from `src/main.py` (lines 29-44). -/
def parse_json (data : JVal) : List (String × String × String) :=
  if isDictJV data = false then [] else
  match itemsField data with
  | JVal.arr items => items.foldl parse_item_step []
  | _ => []

example : parse_json (JVal.obj [(("data"),
    JVal.arr [JVal.obj [(("title"), JVal.str ("A")), (("download"), JVal.str ("https://x/y")),
                        (("size"), JVal.str ("1MB"))]])]) =
    [(("A"), ("https://x/y"), ("1MB"))] := by decide

example : parse_json (JVal.obj [(("data"),
    JVal.arr [JVal.obj [(("download"), JVal.str ("not-a-url"))]])]) = [] := by decide

example : parse_json (JVal.obj [(("items"),
    JVal.arr [JVal.obj [(("name"), JVal.str ("B")), (("url"), JVal.str ("http://z"))]])]) =
    [(("B"), ("http://z"), (""))] := by decide

/-! ## Claim-side and amended formulations of the parser -/

/-- C2's literal reading of the title rule: the `title` key when present,
else the `name` key, else the default. (Key presence, not truthiness.) -/
def claimTitle (item : JVal) : JVal :=
  match jget item ("title") with
  | some v => v
  | none =>
    match jget item ("name") with
    | some v => v
    | none => JVal.str ("Unknown File")

/-- C2's literal reading of the download rule: the first present key among
`download`, `url`, `link`. -/
def claimDownload (item : JVal) : Option JVal :=
  match jget item ("download") with
  | some v => some v
  | none =>
    match jget item ("url") with
    | some v => some v
    | none => jget item ("link")

/-- C2's literal reading of the size rule: `size` key when present, else
`filesize`, else the empty string. -/
def claimSize (item : JVal) : JVal :=
  match jget item ("size") with
  | some v => v
  | none => (jget item ("filesize")).getD (JVal.str (""))

/-- One item under C2's literal reading: kept iff the resolved download is an
http(s) string. -/
def claimItem (item : JVal) : Option (String × String × String) :=
  if isDictJV item = false then none else
  match claimDownload item with
  | some (JVal.str d) =>
    if strStarts ("http://") d || strStarts ("https://") d then
      some (pystr (claimTitle item), d, pystr (claimSize item))
    else none
  | _ => none

/-- The parser C2 literally describes: presence-based key resolution. -/
def parseClaimC2 (data : JVal) : List (String × String × String) :=
  if isDictJV data = false then [] else
  match itemsField data with
  | JVal.arr items => items.filterMap claimItem
  | _ => []

/-- One item as the code actually resolves it: Python `or`, so a present but
falsy value (empty string, 0, null, ...) falls through to the next key. -/
def itemAmended (item : JVal) : Option (String × String × String) :=
  if isDictJV item = false then none else
  let title := orJ (orJ (jgetV item ("title")) (jgetV item ("name"))) (JVal.str ("Unknown File"))
  let download := orJ (orJ (jgetV item ("download")) (jgetV item ("url"))) (jgetV item ("link"))
  let size := orJ (orJ (jgetV item ("size")) (jgetV item ("filesize"))) (JVal.str (""))
  match download with
  | JVal.str d =>
    if strStarts ("http://") d || strStarts ("https://") d then
      some (pystr title, d, pystr size)
    else none
  | _ => none

/-- The amended C2 parser: truthiness-based key fallthrough, order-preserving
filter over the source array. -/
def parseAmendedC2 (data : JVal) : List (String × String × String) :=
  if isDictJV data = false then [] else
  match itemsField data with
  | JVal.arr items => items.filterMap itemAmended
  | _ => []

theorem parse_item_step_eq (res : List (String × String × String)) (item : JVal) :
    parse_item_step res item =
      (match itemAmended item with
       | some t => res ++ [t]
       | none => res) := by
  unfold parse_item_step itemAmended
  by_cases hd : isDictJV item = false
  · simp [hd]
  · simp only [hd, if_false]
    rcases horJ : orJ (orJ (jgetV item ("download")) (jgetV item ("url"))) (jgetV item ("link"))
      with _ | b | n | d | xs | kvs <;> simp [horJ]
    split <;> simp

theorem foldl_parse_item_step (items : List JVal) (acc : List (String × String × String)) :
    items.foldl parse_item_step acc = acc ++ items.filterMap itemAmended := by
  induction items generalizing acc with
  | nil => simp
  | cons x xs ih =>
    rw [List.foldl_cons, parse_item_step_eq, List.filterMap_cons]
    rcases hx : itemAmended x with _ | t <;> simp [ih]

/-- C2: the claim's presence-based reading of the key alternatives is
falsified by an item whose `title` key is present but empty: the code
(Python `or`) falls through to the default "Unknown File" while the claim
keeps the empty title. -/
theorem c2_falsy_title_counterexample :
    parse_json (JVal.obj [(("data"),
        JVal.arr [JVal.obj [(("title"), JVal.str ("")),
                            (("download"), JVal.str ("https://x"))]])]) =
      [(("Unknown File"), ("https://x"), (""))] ∧
    parseClaimC2 (JVal.obj [(("data"),
        JVal.arr [JVal.obj [(("title"), JVal.str ("")),
                            (("download"), JVal.str ("https://x"))]])]) =
      [((""), ("https://x"), (""))] := by
  constructor <;> decide

/-- C2 (amended): per item, each of title, download and size is resolved by
Python truthiness over the stated key order (a present but falsy value falls
through to the next alternative or the default); the item is kept iff the
resolved download is a string beginning with http:// or https://, and the
survivors keep the source-array order. -/
theorem c2_parse_items_amended (data : JVal) : parse_json data = parseAmendedC2 data := by
  unfold parse_json parseAmendedC2
  by_cases hd : isDictJV data = false
  · simp [hd]
  · simp only [hd, if_false]
    rcases hf : itemsField data with _ | b | n | s | items | kvs <;> simp
    exact foldl_parse_item_step items []

/-- C3: the parser is a total function; a non-dict document, or a resolved
items field that is not a list, yields the empty result rather than an
error. -/
theorem c3_parse_total_defensive (data : JVal) :
    (isDictJV data = false → parse_json data = []) ∧
    (isArrJV (itemsField data) = false → parse_json data = []) := by
  constructor
  · intro h
    simp [parse_json, h]
  · intro h
    unfold parse_json
    by_cases hd : isDictJV data = false
    · simp [hd]
    · simp only [hd, if_false]
      rcases hf : itemsField data with _ | b | n | s | items | kvs <;> simp
      rw [hf] at h
      simp [isArrJV] at h

/-- C3 witness: a bare string document and a document whose `data` field is a
string both parse to the empty list. -/
theorem c3_parse_total_defensive_witness :
    parse_json (JVal.str ("not a document")) = [] ∧
    parse_json (JVal.obj [(("data"), JVal.str ("not a list"))]) = [] := by
  constructor
  · exact (c3_parse_total_defensive (JVal.str ("not a document"))).1 (by decide)
  · exact (c3_parse_total_defensive (JVal.obj [(("data"), JVal.str ("not a list"))])).2 (by decide)

/-! ## Link resolver (`build_api_url`, lines 26-27 and 126-129) -/

/-- Uppercase hexadecimal digit. -/
def hexDigitCh (d : Nat) : Char :=
  match d with
  | 0 => '0' | 1 => '1' | 2 => '2' | 3 => '3' | 4 => '4' | 5 => '5' | 6 => '6'
  | 7 => '7' | 8 => '8' | 9 => '9' | 10 => 'A' | 11 => 'B' | 12 => 'C' | 13 => 'D'
  | 14 => 'E' | _ => 'F'

/-- UTF-8 bytes of a character. -/
def utf8Bytes (c : Char) : List Nat :=
  let n := c.toNat
  if n < 128 then [n]
  else if n < 2048 then [192 + n / 64, 128 + n % 64]
  else if n < 65536 then [224 + n / 4096, 128 + (n / 64) % 64, 128 + n % 64]
  else [240 + n / 262144, 128 + (n / 4096) % 64, 128 + (n / 64) % 64, 128 + n % 64]

/-- `%XX` percent-encoding of one byte, uppercase hex. -/
def percentEnc (b : Nat) : List Char := ['%', hexDigitCh (b / 16 % 16), hexDigitCh (b % 16)]

/-- Characters `urllib.parse.quote_plus` leaves unencoded. -/
def quoteSafe (c : Char) : Bool :=
  c.isAlpha || c.isDigit || c == '_' || c == '.' || c == '-' || c == '~'

/-- Python `urllib.parse.quote_plus`: safe characters kept, space becomes `+`,
everything else percent-encoded per UTF-8 byte. -/
def quote_plus (s : String) : String :=
  String.mk ((s.data.map (fun c =>
    if quoteSafe c then [c]
    else if c == Char.ofNat 32 then ['+']
    else ((utf8Bytes c).map percentEnc).flatten)).flatten)

/-- The fixed prefix of `TERADL_PATTERN` (line 11) up to the `link` slot. -/
def TERADL_PATTERN_HEAD : String := "https://teradl.tiiny.io/?key=RushVx&link="

/-- `build_api_url` from `src/main.py` (lines 26-27). -/
def build_api_url (shared_link : String) : String :=
  TERADL_PATTERN_HEAD ++ quote_plus shared_link

example : quote_plus ("a b/c") = "a+b%2Fc" := by decide

/-! ## Rate-limit gate and message pipeline (`handle`, lines 108-129) -/

/-- The `user_cooldown` dict: user id to last-allowed timestamp. -/
def CdMap : Type := List (Nat × ℚ)

/-- Dict lookup in the cooldown map. -/
def lookupCd : CdMap → Nat → Option ℚ
  | [], _ => none
  | (k, v) :: rest, u => if k = u then some v else lookupCd rest u

/-- Dict assignment `user_cooldown[user_id] = now`: replace or append. -/
def setCd : CdMap → Nat → ℚ → CdMap
  | [], u, t => [(u, t)]
  | (k, v) :: rest, u, t => if k = u then (k, t) :: rest else (k, v) :: setCd rest u t

/-- `COOLDOWN_SECONDS` (line 12). -/
def COOLDOWN_SECONDS : ℚ := 15

/-- The rate-limit gate of `handle` (lines 115-121): a missing record reads
as 0; reject inside the window with `int(COOLDOWN_SECONDS - (now - last))`
remaining seconds and an unchanged map; allow otherwise, storing `now`. -/
def rate_gate (m : CdMap) (u : Nat) (now : ℚ) : Bool × Int × CdMap :=
  let last := (lookupCd m u).getD 0
  if now - last < COOLDOWN_SECONDS then
    (false, pytrunc (COOLDOWN_SECONDS - (now - last)), m)
  else
    (true, 0, setCd m u now)

/-- Outcome of `handle` up to the outbound fetch. -/
inductive HandleOutcome where
  | cooldown (remaining : Int)
  | invalidLink
  | fetch (api_url : String)
deriving DecidableEq

/-- `handle` (lines 108-129) as a state transformer on the cooldown map:
gate, then strip, then blank check, then outbound URL selection. -/
def handle_step (m : CdMap) (u : Nat) (now : ℚ) (text : String) :
    HandleOutcome × CdMap :=
  match rate_gate m u now with
  | (false, remaining, m2) => (HandleOutcome.cooldown remaining, m2)
  | (true, _, m2) =>
    let t := pyStrip text
    if t = "" then (HandleOutcome.invalidLink, m2)
    else if containsSub t ("teradl.tiiny.io") then (HandleOutcome.fetch t, m2)
    else (HandleOutcome.fetch (build_api_url t), m2)

theorem lookupCd_setCd (m : CdMap) (u v : Nat) (t : ℚ) :
    lookupCd (setCd m u t) v = if v = u then some t else lookupCd m v := by
  induction m with
  | nil =>
    rcases eq_or_ne v u with h | h
    · subst h; simp [setCd, lookupCd]
    · simp [setCd, lookupCd, h, Ne.symm h]
  | cons kv rest ih =>
    rcases kv with ⟨k, w⟩
    rcases eq_or_ne k u with hk | hk
    · subst hk
      rcases eq_or_ne v k with hv | hv
      · subst hv; simp [setCd, lookupCd]
      · simp [setCd, lookupCd, hv, Ne.symm hv]
    · rcases eq_or_ne k v with hv | hv
      · subst hv
        simp [setCd, lookupCd, hk]
      · simp [setCd, lookupCd, hk, hv, ih]

theorem pytrunc_eq_floor (q : ℚ) (h : 0 ≤ q) : pytrunc q = ⌊q⌋ := by
  simp [pytrunc, h]


/-- C1 counterexample: user 1 was allowed at t=100 and retries at t=114.5
(gap 14.5 s < 15 s). The code reports `int(15 - 14.5) = 0` remaining seconds,
while the claim demands `ceil(15 - 14.5) = 1`, strictly positive. -/
theorem c1_remaining_counterexample :
    (rate_gate [(1, (100 : ℚ))] 1 (229 / 2)).1 = false ∧
    (rate_gate [(1, (100 : ℚ))] 1 (229 / 2)).2.1 = 0 ∧
    ⌈COOLDOWN_SECONDS - ((229 / 2 : ℚ) - 100)⌉ = 1 := by
  have hl : lookupCd [(1, (100 : ℚ))] 1 = some 100 := by simp [lookupCd]
  have hc : (229 / 2 : ℚ) - 100 < COOLDOWN_SECONDS := by norm_num [COOLDOWN_SECONDS]
  refine ⟨?_, ?_, ?_⟩
  · simp [rate_gate, hl, hc]
  · simp only [rate_gate, hl, Option.getD_some, if_pos hc]
    norm_num [pytrunc, COOLDOWN_SECONDS, Int.floor_eq_iff]
  · norm_num [COOLDOWN_SECONDS, Int.ceil_eq_iff]

/-- C1 (amended): the gate allows iff `now - lastStored >= 15` (a user with
no record reads as `lastStored = 0`, hence is allowed whenever `now >= 15`);
on allow the stored timestamp becomes `now`; on reject the map is unchanged
and the reported remaining seconds equal `floor(15 - (now - lastStored))`,
which is nonnegative but may be zero. -/
theorem c1_rate_gate_amended (m : CdMap) (u : Nat) (now : ℚ) :
    ((rate_gate m u now).1 = true ↔ COOLDOWN_SECONDS ≤ now - (lookupCd m u).getD 0) ∧
    (lookupCd m u = none → COOLDOWN_SECONDS ≤ now → (rate_gate m u now).1 = true) ∧
    ((rate_gate m u now).1 = true →
      (rate_gate m u now).2.2 = setCd m u now ∧
      lookupCd (rate_gate m u now).2.2 u = some now) ∧
    ((rate_gate m u now).1 = false →
      (rate_gate m u now).2.2 = m ∧
      (rate_gate m u now).2.1 = ⌊COOLDOWN_SECONDS - (now - (lookupCd m u).getD 0)⌋ ∧
      0 ≤ (rate_gate m u now).2.1) := by
  by_cases hc : now - (lookupCd m u).getD 0 < COOLDOWN_SECONDS
  · have hpos : (0 : ℚ) ≤ COOLDOWN_SECONDS - (now - (lookupCd m u).getD 0) := by linarith
    refine ⟨?_, ?_, ?_, ?_⟩
    · have h1 : (rate_gate m u now).1 = false := by simp [rate_gate, hc]
      rw [h1]
      constructor
      · intro h
        simp at h
      · intro h
        linarith
    · intro hnone hge
      rw [hnone] at hc
      simp at hc
      linarith
    · intro h
      simp [rate_gate, hc] at h
    · intro _
      refine ⟨by simp [rate_gate, hc], ?_, ?_⟩
      · simp [rate_gate, hc, pytrunc_eq_floor _ hpos]
      · simp only [rate_gate, if_pos hc]
        rw [pytrunc_eq_floor _ hpos]
        exact Int.floor_nonneg.mpr hpos
  · refine ⟨?_, ?_, ?_, ?_⟩
    · simp [rate_gate, hc]
      linarith [not_lt.mp hc]
    · intro _ _
      simp [rate_gate, hc]
    · intro _
      refine ⟨by simp [rate_gate, hc], ?_⟩
      simp [rate_gate, hc, lookupCd_setCd]
    · intro h
      simp [rate_gate, hc] at h

/-- C1 witness: a user with no record, at t=20, is allowed. -/
theorem c1_rate_gate_amended_witness : (rate_gate ([] : CdMap) 1 20).1 = true :=
  (c1_rate_gate_amended [] 1 20).2.1 rfl (by norm_num [COOLDOWN_SECONDS])

theorem handle_step_of_allowed (m : CdMap) (u : Nat) (now : ℚ) (text : String)
    (h : COOLDOWN_SECONDS ≤ now - (lookupCd m u).getD 0) :
    handle_step m u now text =
      (if pyStrip text = "" then (HandleOutcome.invalidLink, setCd m u now)
       else if containsSub (pyStrip text) ("teradl.tiiny.io") then
         (HandleOutcome.fetch (pyStrip text), setCd m u now)
       else (HandleOutcome.fetch (build_api_url (pyStrip text)), setCd m u now)) := by
  have hg : rate_gate m u now = (true, 0, setCd m u now) := by
    simp [rate_gate, not_lt.mpr h]
  simp only [handle_step, hg]

theorem handle_step_of_cooled (m : CdMap) (u : Nat) (now : ℚ) (text : String)
    (h : now - (lookupCd m u).getD 0 < COOLDOWN_SECONDS) :
    handle_step m u now text =
      (HandleOutcome.cooldown (pytrunc (COOLDOWN_SECONDS - (now - (lookupCd m u).getD 0))), m) := by
  have hg : rate_gate m u now =
      (false, pytrunc (COOLDOWN_SECONDS - (now - (lookupCd m u).getD 0)), m) := by
    simp [rate_gate, h]
  simp only [handle_step, hg]

/-- C8 counterexample: user 1's first message at t=100 creates the record
with timestamp 100; a second message at t=105 is cooled down and the stored
timestamp stays 100 instead of being updated to 105, refuting "updated on
every subsequent message ... whether allowed or cooled down". -/
theorem c8_cooldown_map_counterexample :
    (handle_step ([] : CdMap) 1 100 ("")).2 = [(1, (100 : ℚ))] ∧
    (handle_step [(1, (100 : ℚ))] 1 105 ("")).2 = [(1, (100 : ℚ))] ∧
    lookupCd (handle_step [(1, (100 : ℚ))] 1 105 ("")).2 1 = some 100 ∧
    (100 : ℚ) < 105 := by
  have h1 : handle_step ([] : CdMap) 1 100 ("") = (HandleOutcome.invalidLink, [(1, (100 : ℚ))]) := by
    rw [handle_step_of_allowed ([] : CdMap) 1 100 ("") (by norm_num [lookupCd, COOLDOWN_SECONDS])]
    simp [pyStrip, setCd]
  have h2 : handle_step [(1, (100 : ℚ))] 1 105 ("") =
      (HandleOutcome.cooldown (pytrunc (COOLDOWN_SECONDS - ((105 : ℚ) - 100))), [(1, (100 : ℚ))]) := by
    rw [handle_step_of_cooled [(1, (100 : ℚ))] 1 105 ("") (by norm_num [lookupCd, COOLDOWN_SECONDS])]
    simp [lookupCd]
  refine ⟨by rw [h1], by rw [h2], by rw [h2]; simp [lookupCd], by norm_num⟩

/-- C8 (amended): the per-user record is created by the user's first allowed
message (which the first message is whenever `now >= 15`, the no-record case
reading as timestamp 0) and updated to `now` by every allowed message; a
cooled-down message leaves the map unchanged; no entry is ever removed. -/
theorem c8_cooldown_map_amended (m : CdMap) (u : Nat) (now : ℚ) (text : String) :
    ((rate_gate m u now).1 = true →
      (handle_step m u now text).2 = setCd m u now ∧
      lookupCd (handle_step m u now text).2 u = some now) ∧
    ((rate_gate m u now).1 = false → (handle_step m u now text).2 = m) ∧
    (∀ v t0, lookupCd m v = some t0 →
      ∃ t1, lookupCd (handle_step m u now text).2 v = some t1) ∧
    (lookupCd m u = none → COOLDOWN_SECONDS ≤ now →
      lookupCd (handle_step m u now text).2 u = some now) := by
  by_cases hc : now - (lookupCd m u).getD 0 < COOLDOWN_SECONDS
  · have h1 : (rate_gate m u now).1 = false := by simp [rate_gate, hc]
    have h2 := handle_step_of_cooled m u now text hc
    refine ⟨?_, ?_, ?_, ?_⟩
    · intro h
      rw [h1] at h
      simp at h
    · intro _
      rw [h2]
    · intro v t0 hv
      exact ⟨t0, by rw [h2]; exact hv⟩
    · intro hnone hge
      rw [hnone] at hc
      simp at hc
      linarith
  · have h2 := handle_step_of_allowed m u now text (not_lt.mp hc)
    have hmap : (handle_step m u now text).2 = setCd m u now := by
      rw [h2]
      split
      · rfl
      · split <;> rfl
    refine ⟨?_, ?_, ?_, ?_⟩
    · intro _
      exact ⟨hmap, by rw [hmap, lookupCd_setCd]; simp⟩
    · intro h
      have h1 : (rate_gate m u now).1 = true := by simp [rate_gate, hc]
      rw [h1] at h
      simp at h
    · intro v t0 hv
      rw [hmap, lookupCd_setCd]
      rcases eq_or_ne v u with hvu | hvu
      · exact ⟨now, by simp [hvu]⟩
      · exact ⟨t0, by simp [hvu, hv]⟩
    · intro _ _
      rw [hmap, lookupCd_setCd]
      simp

/-- C8 witness: an allowed message stores its own timestamp. -/
theorem c8_cooldown_map_amended_witness :
    lookupCd (handle_step ([] : CdMap) 7 30 ("x")).2 7 = some 30 :=
  (c8_cooldown_map_amended [] 7 30 ("x")).2.2.2 rfl (by norm_num [COOLDOWN_SECONDS])

/-- C9: a message that passes the gate but strips to blank still stores `now`
in the cooldown map before the blank check, so the user's next message within
the window is rejected with the usual countdown. -/
theorem c9_blank_consumes_cooldown (m : CdMap) (u : Nat) (now now2 : ℚ)
    (text text2 : String)
    (hallow : COOLDOWN_SECONDS ≤ now - (lookupCd m u).getD 0)
    (hblank : pyStrip text = "")
    (hsoon : now2 - now < COOLDOWN_SECONDS) :
    (handle_step m u now text).1 = HandleOutcome.invalidLink ∧
    lookupCd (handle_step m u now text).2 u = some now ∧
    (handle_step (handle_step m u now text).2 u now2 text2).1 =
      HandleOutcome.cooldown (pytrunc (COOLDOWN_SECONDS - (now2 - now))) := by
  have h1 : handle_step m u now text = (HandleOutcome.invalidLink, setCd m u now) := by
    rw [handle_step_of_allowed m u now text hallow, if_pos hblank]
  have hlk : lookupCd (setCd m u now) u = some now := by
    rw [lookupCd_setCd]
    simp
  refine ⟨by rw [h1], by rw [h1]; exact hlk, ?_⟩
  rw [h1]
  have h2 : now2 - (lookupCd (setCd m u now) u).getD 0 < COOLDOWN_SECONDS := by
    rw [hlk]
    simpa using hsoon
  rw [handle_step_of_cooled (setCd m u now) u now2 text2 h2, hlk]
  simp

/-- C9 witness: user 1 passes the gate at t=100 with a blank message, the
slot is consumed, and a retry at t=105 is rejected. -/
theorem c9_blank_consumes_cooldown_witness :
    (handle_step ([] : CdMap) 1 100 (" ")).1 = HandleOutcome.invalidLink ∧
    lookupCd (handle_step ([] : CdMap) 1 100 (" ")).2 1 = some 100 ∧
    (handle_step (handle_step ([] : CdMap) 1 100 (" ")).2 1 105 ("x")).1 =
      HandleOutcome.cooldown (pytrunc (COOLDOWN_SECONDS - ((105 : ℚ) - 100))) :=
  c9_blank_consumes_cooldown [] 1 100 105 (" ") ("x")
    (by norm_num [lookupCd, COOLDOWN_SECONDS]) (by decide)
    (by norm_num [COOLDOWN_SECONDS])

/-- C7: for any nonblank submission, the outbound URL is the stripped text
itself when it contains the API host marker, and otherwise the fixed template
with the fixed key and the percent-encoded text; no well-formedness check is
performed in either case. -/
theorem c7_link_resolution (m : CdMap) (u : Nat) (now : ℚ) (text : String)
    (hallow : COOLDOWN_SECONDS ≤ now - (lookupCd m u).getD 0)
    (hnonblank : pyStrip text ≠ "") :
    (handle_step m u now text).1 =
      (if containsSub (pyStrip text) ("teradl.tiiny.io") then
        HandleOutcome.fetch (pyStrip text)
      else
        HandleOutcome.fetch (("https://teradl.tiiny.io/?key=RushVx&link=") ++
          quote_plus (pyStrip text))) := by
  rw [handle_step_of_allowed m u now text hallow, if_neg hnonblank]
  split <;> simp [build_api_url, TERADL_PATTERN_HEAD]

/-- C7 witness: a terabox link at t=20 from a fresh user is substituted
percent-encoded into the fixed template. -/
theorem c7_link_resolution_witness :
    (handle_step ([] : CdMap) 1 20 ("https://terabox.com/s/1abc")).1 =
      HandleOutcome.fetch
        ("https://teradl.tiiny.io/?key=RushVx&link=https%3A%2F%2Fterabox.com%2Fs%2F1abc") := by
  have h := c7_link_resolution [] 1 20 ("https://terabox.com/s/1abc")
    (by norm_num [lookupCd, COOLDOWN_SECONDS]) (by decide)
  rw [h, if_neg (by decide)]
  decide

/-! ## Keepalive HTTP server (`_SimpleHandler`, lines 46-94) -/

/-- Payload values that `_send_json` receives in the source. -/
inductive PyVal where
  | vbool (b : Bool)
  | vint (n : Int)
  | vnone
  | vstr (s : String)

/-- Python `str` of such a payload value. -/
def pyValStr : PyVal → String
  | PyVal.vbool true => "True"
  | PyVal.vbool false => "False"
  | PyVal.vint n => intRepr n
  | PyVal.vnone => "None"
  | PyVal.vstr s => squo ++ s ++ squo

/-- Python `str` of the bindings of a dict payload, comma-separated. -/
def pyKVs : List (String × PyVal) → String
  | [] => ""
  | [(k, v)] => squo ++ k ++ squo ++ ": " ++ pyValStr v
  | (k, v) :: w :: rest => squo ++ k ++ squo ++ ": " ++ pyValStr v ++ ", " ++ pyKVs (w :: rest)

/-- Python `str` of a dict payload. -/
def pyDictStr (kvs : List (String × PyVal)) : String := "\x7b" ++ pyKVs kvs ++ "\x7d"

/-- The character substitution of `.replace("'", '"')`. -/
def swapQuote (c : Char) : Char := if c = Char.ofNat 39 then Char.ofNat 34 else c

/-- `str.replace` with a one-character pattern is a character map. -/
def replaceQuotes (s : String) : String := String.mk (s.data.map swapQuote)

/-- `_send_json` (lines 54-60): the bytes written are
`str(payload).replace("'", '"')`. -/
def send_json_body (kvs : List (String × PyVal)) : String := replaceQuotes (pyDictStr kvs)

/-- An HTTP response as far as the claims observe it. -/
structure HttpResponse where
  status : Nat
  contentType : String
  body : String
deriving DecidableEq

/-- The process-wide state the keepalive server reads and writes. -/
structure ServerState where
  startTime : ℚ
  lastUserActivity : Option ℚ
  lastPing : Option Int
  pid : Int
deriving DecidableEq

/-- `parse_qs(...)["token"]`: values of the `token` parameter in order,
blank values dropped (the `parse_qs` default). -/
def qsTokenVals (query : List (String × String)) : List String :=
  (query.filter (fun kv => kv.1 == "token" && !(kv.2 == ""))).map Prod.snd

/-- `_require_token_qs` (lines 46-51): accept when no secret is configured
(unset or empty), else demand a first `token` value equal to the secret. -/
def require_token_qs (secret : Option String) (query : List (String × String)) : Bool :=
  match secret with
  | none => true
  | some s =>
    if s = "" then true
    else
      match qsTokenVals query with
      | [] => false
      | v :: _ => v == s

/-- The `/health` payload dict (lines 82-89), in source order; a zero
timestamp is falsy in Python and renders as `None`. -/
def healthPayload (st : ServerState) (nowI : Int) : List (String × PyVal) :=
  [(("ok"), PyVal.vbool true),
   (("uptime"), PyVal.vint (pytrunc ((nowI : ℚ) - st.startTime))),
   (("pid"), PyVal.vint st.pid),
   (("last_user_activity"),
     match st.lastUserActivity with
     | some q => if q = 0 then PyVal.vnone else PyVal.vint (pytrunc q)
     | none => PyVal.vnone),
   (("last_ping"),
     match st.lastPing with
     | some n => if n = 0 then PyVal.vnone else PyVal.vint n
     | none => PyVal.vnone),
   (("time"), PyVal.vint nowI)]

/-- The 403 payload (lines 71 and 79). -/
def errPayload : List (String × PyVal) :=
  [(("ok"), PyVal.vbool false), (("error"), PyVal.vstr ("invalid token"))]

/-- `do_GET` (lines 67-94): `/ping` and `/health` behind the token check,
everything else answered `200 OK` in plaintext. -/
def doGET (secret : Option String) (st : ServerState) (now : ℚ)
    (path : String) (query : List (String × String)) : HttpResponse × ServerState :=
  if path = "/ping" then
    if require_token_qs secret query = false then
      (⟨403, ("application/json"), send_json_body errPayload⟩, st)
    else
      (⟨200, ("application/json"),
        send_json_body [(("ok"), PyVal.vbool true), (("timestamp"), PyVal.vint (pytrunc now))]⟩,
       ⟨st.startTime, st.lastUserActivity, some (pytrunc now), st.pid⟩)
  else if path = "/health" then
    if require_token_qs secret query = false then
      (⟨403, ("application/json"), send_json_body errPayload⟩, st)
    else
      (⟨200, ("application/json"), send_json_body (healthPayload st (pytrunc now))⟩, st)
  else
    (⟨200, ("text/plain"), ("OK")⟩, st)

theorem doGET_ping_ok (secret : Option String) (st : ServerState) (now : ℚ)
    (query : List (String × String)) (h : require_token_qs secret query = true) :
    doGET secret st now ("/ping") query =
      (⟨200, ("application/json"),
        send_json_body [(("ok"), PyVal.vbool true), (("timestamp"), PyVal.vint (pytrunc now))]⟩,
       ⟨st.startTime, st.lastUserActivity, some (pytrunc now), st.pid⟩) := by
  simp [doGET, h]

theorem doGET_health_ok (secret : Option String) (st : ServerState) (now : ℚ)
    (query : List (String × String)) (h : require_token_qs secret query = true) :
    doGET secret st now ("/health") query =
      (⟨200, ("application/json"), send_json_body (healthPayload st (pytrunc now))⟩, st) := by
  simp [doGET, h]

theorem doGET_denied (secret : Option String) (st : ServerState) (now : ℚ)
    (path : String) (query : List (String × String))
    (hpath : path = "/ping" ∨ path = "/health")
    (h : require_token_qs secret query = false) :
    doGET secret st now path query =
      (⟨403, ("application/json"), send_json_body errPayload⟩, st) := by
  rcases hpath with h2 | h2 <;> subst h2 <;> simp [doGET, h]

/-- C5: on `/ping` and `/health`, no configured secret (unset or empty) means
every request is answered 200; a configured secret means 200 exactly when the
first `token` query value equals the secret, and any other request gets the
fixed 403 `ok: False` JSON response. -/
theorem c5_token_gate (secret : Option String) (s : String) (st : ServerState)
    (now : ℚ) (path : String) (query : List (String × String))
    (hpath : path = "/ping" ∨ path = "/health") :
    ((secret = none ∨ secret = some ("")) →
      (doGET secret st now path query).1.status = 200) ∧
    (secret = some s → s ≠ "" →
      (((doGET secret st now path query).1.status = 200) ↔
        (qsTokenVals query).head? = some s) ∧
      ((qsTokenVals query).head? ≠ some s →
        (doGET secret st now path query).1 =
          ⟨403, ("application/json"), send_json_body errPayload⟩)) := by
  have hok : require_token_qs secret query = true →
      (doGET secret st now path query).1.status = 200 := by
    intro h
    rcases hpath with h2 | h2 <;> subst h2
    · rw [doGET_ping_ok secret st now query h]
    · rw [doGET_health_ok secret st now query h]
  have hko : require_token_qs secret query = false →
      (doGET secret st now path query).1 =
        ⟨403, ("application/json"), send_json_body errPayload⟩ := by
    intro h
    rw [doGET_denied secret st now path query hpath h]
  constructor
  · intro h
    rcases h with h | h <;> subst h
    · exact hok rfl
    · exact hok (by simp [require_token_qs])
  · intro hsec hs
    subst hsec
    rcases hq : qsTokenVals query with _ | ⟨v, vs⟩
    · have hr : require_token_qs (some s) query = false := by
        simp [require_token_qs, hs, hq]
      constructor
      · rw [hko hr]
        simp [hq]
      · intro _
        exact hko hr
    · by_cases hv : v = s
      · have hr : require_token_qs (some s) query = true := by
          simp [require_token_qs, hs, hq, hv]
        constructor
        · simp [hok hr, hv]
        · intro hne
          exfalso
          apply hne
          simp [hv]
      · have hr : require_token_qs (some s) query = false := by
          simp [require_token_qs, hs, hq, hv]
        constructor
        · rw [hko hr]
          simp [hv]
        · intro _
          exact hko hr

/-- C5 witness: with secret "sek" configured, a matching token on `/ping` is
answered 200 and a wrong token is answered 403. -/
theorem c5_token_gate_witness :
    (doGET (some ("sek")) ⟨0, none, none, 1⟩ 0 ("/ping") [(("token"), ("sek"))]).1.status = 200 ∧
    (doGET (some ("sek")) ⟨0, none, none, 1⟩ 0 ("/ping") [(("token"), ("bad"))]).1.status = 403 := by
  constructor
  · exact ((c5_token_gate (some ("sek")) ("sek") ⟨0, none, none, 1⟩ 0 ("/ping")
      [(("token"), ("sek"))] (Or.inl rfl)).2 rfl (by decide)).1.mpr (by decide)
  · have h := ((c5_token_gate (some ("sek")) ("sek") ⟨0, none, none, 1⟩ 0 ("/ping")
      [(("token"), ("bad"))] (Or.inl rfl)).2 rfl (by decide)).2 (by decide)
    rw [h]

/-- C10: any GET whose parsed path is neither `/ping` nor `/health` (not just
the root) is answered `200 OK` in plaintext with no token check and no state
change, even when a secret is configured. -/
theorem c10_fallback_ok (secret : Option String) (st : ServerState) (now : ℚ)
    (path : String) (query : List (String × String))
    (h1 : path ≠ "/ping") (h2 : path ≠ "/health") :
    (doGET secret st now path query).1 = ⟨200, ("text/plain"), ("OK")⟩ ∧
    (doGET secret st now path query).2 = st := by
  constructor <;> simp [doGET, h1, h2]

/-- C10 witness: the root path with a configured secret and a wrong token is
still answered `200 OK`. -/
theorem c10_fallback_ok_witness :
    (doGET (some ("sek")) ⟨0, none, none, 1⟩ 0 ("/") [(("token"), ("bad"))]).1 =
      ⟨200, ("text/plain"), ("OK")⟩ :=
  (c10_fallback_ok (some ("sek")) ⟨0, none, none, 1⟩ 0 ("/") [(("token"), ("bad"))]
    (by decide) (by decide)).1

/-! ## The `/health` body, spelled out -/

theorem rq_append (a b : String) :
    replaceQuotes (a ++ b) = replaceQuotes a ++ replaceQuotes b := by
  rcases a with ⟨da⟩
  rcases b with ⟨db⟩
  simp [replaceQuotes, String.data_append]
  rfl

theorem swapQuote_digitCh (d : Nat) : swapQuote (digitCh d) = digitCh d := by
  unfold digitCh
  split <;> decide

theorem map_swapQuote_natDigitsAux (fuel n : Nat) :
    (natDigitsAux fuel n).map swapQuote = natDigitsAux fuel n := by
  induction fuel generalizing n with
  | zero => rfl
  | succ f ih =>
    unfold natDigitsAux
    split
    · simp [swapQuote_digitCh]
    · simp [ih, swapQuote_digitCh]

theorem rq_intRepr (n : Int) : replaceQuotes (intRepr n) = intRepr n := by
  have hm : swapQuote (Char.ofNat 45) = Char.ofNat 45 := by decide
  unfold intRepr replaceQuotes
  split <;> simp [natDigits, map_swapQuote_natDigitsAux, hm]

theorem rq_squo : replaceQuotes squo = dquo := by decide

theorem rq_obrace : replaceQuotes ("\x7b") = ("\x7b") := by decide

theorem rq_cbrace : replaceQuotes ("\x7d") = ("\x7d") := by decide

theorem rq_colon : replaceQuotes (": ") = (": ") := by decide

theorem rq_comma : replaceQuotes (", ") = (", ") := by decide

theorem rq_true : replaceQuotes ("True") = ("True") := by decide

theorem rq_none : replaceQuotes ("None") = ("None") := by decide

theorem rq_ok : replaceQuotes ("ok") = ("ok") := by decide

theorem rq_uptime : replaceQuotes ("uptime") = ("uptime") := by decide

theorem rq_pid : replaceQuotes ("pid") = ("pid") := by decide

theorem rq_lua : replaceQuotes ("last_user_activity") = ("last_user_activity") := by decide

theorem rq_lp : replaceQuotes ("last_ping") = ("last_ping") := by decide

theorem rq_time : replaceQuotes ("time") = ("time") := by decide

/-- Rendering of the nullable `last_user_activity` field as the body shows
it: Python `None` for a missing or zero (falsy) timestamp. -/
def optQRepr : Option ℚ → String
  | none => "None"
  | some q => if q = 0 then "None" else intRepr (pytrunc q)

/-- Rendering of the nullable `last_ping` field. -/
def optIRepr : Option Int → String
  | none => "None"
  | some n => if n = 0 then "None" else intRepr n

/-- A double-quoted JSON key as it appears in the emitted body. -/
def jsonKey (k : String) : String := dquo ++ k ++ dquo

/-- The amended C6 body: the Python dict repr with single quotes swapped for
double quotes, i.e. double-quoted keys but `True`/`None` literals, and a
sixth `time` field. -/
def specHealthAmended (st : ServerState) (now : ℚ) : String :=
  ("\x7b") ++ jsonKey ("ok") ++ (": ") ++ ("True") ++ (", ") ++
  jsonKey ("uptime") ++ (": ") ++ intRepr (pytrunc (((pytrunc now : Int) : ℚ) - st.startTime)) ++ (", ") ++
  jsonKey ("pid") ++ (": ") ++ intRepr st.pid ++ (", ") ++
  jsonKey ("last_user_activity") ++ (": ") ++ optQRepr st.lastUserActivity ++ (", ") ++
  jsonKey ("last_ping") ++ (": ") ++ optIRepr st.lastPing ++ (", ") ++
  jsonKey ("time") ++ (": ") ++ intRepr (pytrunc now) ++ ("\x7d")

theorem send_json_body_health (st : ServerState) (nowI : Int) :
    send_json_body (healthPayload st nowI) =
      ("\x7b") ++ jsonKey ("ok") ++ (": ") ++ ("True") ++ (", ") ++
      jsonKey ("uptime") ++ (": ") ++ intRepr (pytrunc ((nowI : ℚ) - st.startTime)) ++ (", ") ++
      jsonKey ("pid") ++ (": ") ++ intRepr st.pid ++ (", ") ++
      jsonKey ("last_user_activity") ++ (": ") ++ optQRepr st.lastUserActivity ++ (", ") ++
      jsonKey ("last_ping") ++ (": ") ++ optIRepr st.lastPing ++ (", ") ++
      jsonKey ("time") ++ (": ") ++ intRepr nowI ++ ("\x7d") := by
  rcases st with ⟨stt, lua, lp, pid⟩
  rcases lua with _ | q <;> rcases lp with _ | n
  · simp only [send_json_body, pyDictStr, healthPayload, pyKVs, pyValStr, optQRepr, optIRepr,
      jsonKey, rq_append, rq_squo, rq_obrace, rq_cbrace, rq_colon, rq_comma, rq_true, rq_none,
      rq_ok, rq_uptime, rq_pid, rq_lua, rq_lp, rq_time, rq_intRepr]
    simp [String.append_assoc]
  · by_cases hn : n = 0 <;>
      simp only [send_json_body, pyDictStr, healthPayload, pyKVs, pyValStr, optQRepr, optIRepr,
        jsonKey, hn, if_pos, if_neg, ite_true, ite_false, rq_append, rq_squo, rq_obrace,
        rq_cbrace, rq_colon, rq_comma, rq_true, rq_none, rq_ok, rq_uptime, rq_pid, rq_lua,
        rq_lp, rq_time, rq_intRepr] <;>
      simp [hn, String.append_assoc]
  · by_cases hq : q = 0 <;>
      simp only [send_json_body, pyDictStr, healthPayload, pyKVs, pyValStr, optQRepr, optIRepr,
        jsonKey, hq, if_pos, if_neg, ite_true, ite_false, rq_append, rq_squo, rq_obrace,
        rq_cbrace, rq_colon, rq_comma, rq_true, rq_none, rq_ok, rq_uptime, rq_pid, rq_lua,
        rq_lp, rq_time, rq_intRepr] <;>
      simp [hq, String.append_assoc]
  · by_cases hq : q = 0 <;> by_cases hn : n = 0 <;>
      simp only [send_json_body, pyDictStr, healthPayload, pyKVs, pyValStr, optQRepr, optIRepr,
        jsonKey, hq, hn, if_pos, if_neg, ite_true, ite_false, rq_append, rq_squo, rq_obrace,
        rq_cbrace, rq_colon, rq_comma, rq_true, rq_none, rq_ok, rq_uptime, rq_pid, rq_lua,
        rq_lp, rq_time, rq_intRepr] <;>
      simp [hq, hn, String.append_assoc]

/-- C6 counterexample: an authorized `/health` request (no secret configured,
uptime 0, pid 1, no recorded activity) is answered 200, but its body is the
Python dict repr with quotes swapped: it contains the Python literal `True`
(and no JSON `true`), renders nulls as `None`, and carries a sixth `"time"`
key the claim excludes — so it is not the claimed five-field JSON object. -/
theorem c6_health_body_counterexample :
    (doGET none ⟨0, none, none, 1⟩ 0 ("/health") []).1.status = 200 ∧
    (doGET none ⟨0, none, none, 1⟩ 0 ("/health") []).1.body =
      ("\x7b\"ok\": True, \"uptime\": 0, \"pid\": 1, \"last_user_activity\": None, \"last_ping\": None, \"time\": 0\x7d") ∧
    containsSub
      ("\x7b\"ok\": True, \"uptime\": 0, \"pid\": 1, \"last_user_activity\": None, \"last_ping\": None, \"time\": 0\x7d")
      ("True") = true ∧
    containsSub
      ("\x7b\"ok\": True, \"uptime\": 0, \"pid\": 1, \"last_user_activity\": None, \"last_ping\": None, \"time\": 0\x7d")
      ("true") = false ∧
    containsSub
      ("\x7b\"ok\": True, \"uptime\": 0, \"pid\": 1, \"last_user_activity\": None, \"last_ping\": None, \"time\": 0\x7d")
      ("\"time\"") = true := by
  have hdo := doGET_health_ok none ⟨0, none, none, 1⟩ 0 [] rfl
  have e0 : pytrunc ((0 : ℚ)) = 0 := by norm_num [pytrunc]
  have hp : healthPayload ⟨0, none, none, 1⟩ (pytrunc 0) =
      [(("ok"), PyVal.vbool true), (("uptime"), PyVal.vint 0), (("pid"), PyVal.vint 1),
       (("last_user_activity"), PyVal.vnone), (("last_ping"), PyVal.vnone),
       (("time"), PyVal.vint 0)] := by
    rw [e0]
    norm_num [healthPayload, pytrunc, Int.floor_zero]
  refine ⟨by rw [hdo], ?_, by decide, by decide, by decide⟩
  rw [hdo]
  show send_json_body (healthPayload ⟨0, none, none, 1⟩ (pytrunc 0)) = _
  rw [hp]
  decide

/-- C6 (amended): an authorized `/health` request is answered 200 with
content type `application/json`, but the body is the Python dict repr with
single quotes replaced by double quotes: double-quoted keys, `True`/`None`
value literals (so not valid JSON), and six fields — `ok`, `uptime`, `pid`,
`last_user_activity`, `last_ping` and additionally `time`. -/
theorem c6_health_body_amended (secret : Option String) (st : ServerState)
    (now : ℚ) (query : List (String × String))
    (hauth : require_token_qs secret query = true) :
    (doGET secret st now ("/health") query).1.status = 200 ∧
    (doGET secret st now ("/health") query).1.contentType = ("application/json") ∧
    (doGET secret st now ("/health") query).1.body = specHealthAmended st now := by
  rw [doGET_health_ok secret st now query hauth]
  refine ⟨rfl, rfl, ?_⟩
  rw [send_json_body_health]
  rfl

/-- C6 witness: the amended body shape at a concrete state. -/
theorem c6_health_body_amended_witness :
    (doGET none ⟨0, none, none, 1⟩ 0 ("/health") []).1.status = 200 ∧
    (doGET none ⟨0, none, none, 1⟩ 0 ("/health") []).1.contentType = ("application/json") ∧
    (doGET none ⟨0, none, none, 1⟩ 0 ("/health") []).1.body =
      specHealthAmended ⟨0, none, none, 1⟩ 0 :=
  c6_health_body_amended none ⟨0, none, none, 1⟩ 0 [] rfl

/-! ## Message formatter (`handle`, lines 142-152) -/

/-- Per-character substitution of Python `html.escape(s, quote=True)`. -/
def escChar (c : Char) : List Char :=
  if c = '&' then ("&amp;").data
  else if c = '<' then ("&lt;").data
  else if c = '>' then ("&gt;").data
  else if c = Char.ofNat 34 then ("&quot;").data
  else if c = Char.ofNat 39 then ("&#x27;").data
  else [c]

/-- `html.escape(s, quote=True)` as used on titles, links and sizes. -/
def htmlEscape (s : String) : String := String.mk ((s.data.map escChar).flatten)

/-- One rendered line (lines 143-149): an anchor from the escaped link and
title, plus an em-dash suffix when the size string is truthy. -/
def lineFor (it : String × String × String) : String :=
  let safeTitle := htmlEscape it.1
  let safeLink := htmlEscape it.2.1
  let line := ("<a href=") ++ dquo ++ safeLink ++ dquo ++ (">") ++ safeTitle ++ ("</a>")
  if it.2.2 = "" then line else line ++ (" — ") ++ htmlEscape it.2.2

/-- The full reply text (lines 142-152): the item lines, a blank line and the
fixed footer, joined by newlines. -/
def renderMessage (items : List (String × String × String)) : String :=
  let lines := items.foldl (fun lines it => lines ++ [lineFor it]) []
  String.intercalate ("\n") (lines ++ [(""), ("— Powered by @Regnis")])

/-- A line as the spec words it: an escaped hyperlink whose target is the
escaped URL and whose text is the escaped title, then the size suffix iff the
size label is non-empty. -/
def specRenderLine (it : String × String × String) : String :=
  (("<a href=") ++ dquo ++ htmlEscape it.2.1 ++ dquo ++ (">") ++
    htmlEscape it.1 ++ ("</a>")) ++
  (if it.2.2 = "" then ("") else (" — ") ++ htmlEscape it.2.2)

/-- Occurrences of a character in a character list. -/
def countCh : List Char → Char → Nat
  | [], _ => 0
  | a :: as, c => (if a = c then 1 else 0) + countCh as c

theorem countCh_append (l1 l2 : List Char) (c : Char) :
    countCh (l1 ++ l2) c = countCh l1 c + countCh l2 c := by
  induction l1 with
  | nil => simp [countCh]
  | cons a as ih => simp [countCh, ih, Nat.add_assoc]

theorem escChar_count_markup (c mc : Char)
    (h : mc = '<' ∨ mc = '>' ∨ mc = Char.ofNat 34 ∨ mc = Char.ofNat 39) :
    countCh (escChar c) mc = 0 := by
  unfold escChar
  by_cases h1 : c = '&'
  · rcases h with h | h | h | h <;> subst h <;> simp [h1] <;> decide
  · by_cases h2 : c = '<'
    · rcases h with h | h | h | h <;> subst h <;> simp [h1, h2] <;> decide
    · by_cases h3 : c = '>'
      · rcases h with h | h | h | h <;> subst h <;> simp [h1, h2, h3] <;> decide
      · by_cases h4 : c = Char.ofNat 34
        · rcases h with h | h | h | h <;> subst h <;> simp [h1, h2, h3, h4] <;> decide
        · by_cases h5 : c = Char.ofNat 39
          · rcases h with h | h | h | h <;> subst h <;> simp [h1, h2, h3, h4, h5] <;> decide
          · rcases h with h | h | h | h <;> subst h <;>
              simp [h1, h2, h3, h4, h5, countCh]

theorem countCh_htmlEscape (s : String) (mc : Char)
    (h : mc = '<' ∨ mc = '>' ∨ mc = Char.ofNat 34 ∨ mc = Char.ofNat 39) :
    countCh (htmlEscape s).data mc = 0 := by
  rcases s with ⟨cs⟩
  show countCh ((cs.map escChar).flatten) mc = 0
  induction cs with
  | nil => rfl
  | cons a as ih =>
    simp only [List.map_cons, List.flatten_cons, countCh_append, ih,
      escChar_count_markup a mc h]

theorem foldl_append_lineFor (items : List (String × String × String))
    (acc : List String) :
    items.foldl (fun lines it => lines ++ [lineFor it]) acc =
      acc ++ items.map lineFor := by
  induction items generalizing acc with
  | nil => simp
  | cons x xs ih => simp [List.foldl_cons, ih]

theorem lineFor_eq_spec (it : String × String × String) :
    lineFor it = specRenderLine it := by
  unfold lineFor specRenderLine
  by_cases h : it.2.2 = ""
  · simp only [if_pos h]
    rw [String.append_empty]
  · simp only [if_neg h]
    rw [String.append_assoc]

/-- C4: the rendered reply is, in input order, one escaped anchor line per
item — link text the escaped title, target the escaped URL — with the
em-dash size suffix exactly for non-empty size labels, then a blank line and
the fixed footer, all newline-joined; and HTML-escaping leaves no raw `<`,
`>`, double-quote or single-quote character in any escaped field, so
markup-significant characters from items never reach the output unescaped. -/
theorem c4_render_escaped (items : List (String × String × String)) (s : String) :
    renderMessage items =
      String.intercalate ("\n")
        ((items.map specRenderLine) ++ [(""), ("— Powered by @Regnis")]) ∧
    countCh (htmlEscape s).data '<' = 0 ∧
    countCh (htmlEscape s).data '>' = 0 ∧
    countCh (htmlEscape s).data (Char.ofNat 34) = 0 ∧
    countCh (htmlEscape s).data (Char.ofNat 39) = 0 := by
  refine ⟨?_, ?_, ?_, ?_, ?_⟩
  · unfold renderMessage
    rw [foldl_append_lineFor, show lineFor = specRenderLine from funext lineFor_eq_spec]
    simp
  · exact countCh_htmlEscape s _ (Or.inl rfl)
  · exact countCh_htmlEscape s _ (Or.inr (Or.inl rfl))
  · exact countCh_htmlEscape s _ (Or.inr (Or.inr (Or.inl rfl)))
  · exact countCh_htmlEscape s _ (Or.inr (Or.inr (Or.inr rfl)))
